import Mathlib

/-!
Shallow embedding of the FONTA usage-gated resilient generation pipeline.

The definitions below are translated from the repository source:
* `src/lib/ai.ts` — `callHFWithRetry`, `summarizeText`, `formatSummary`,
  `createExtractiveSummary`, `generateQuiz`, `parseQuizFromText`, `generateMockQuiz`,
  `getHomeworkHelp`, `formatHomeworkResponse`, `generateMockHomeworkHelp`;
* `src/hooks/useUsageLimits.ts` — the hook state, `loadUsageData`, `incrementUsage`,
  `resetUsage`, `calculateTimeUntilReset`;
* `src/hooks/useProfile.ts` — `canUseFeature`.

Modelling conventions:
* The axios call inside `callHFWithRetry` is abstracted as an oracle
  `call : Nat → HFOutcome` giving, for each 1-based attempt number, either the resolved
  response payload (`resp`) or a thrown exception (`thrown`; axios throws on network
  errors, timeouts and HTTP error statuses alike, so fatal 4xx failures are also
  `thrown` — the catch block does not distinguish them).
* Of the dynamically typed `response.data` only the fields the code inspects are kept:
  `error` (for the model-loading check), `summaryText` (`result?.[0]?.summary_text`) and
  `generatedText` (`result?.[0]?.generated_text`).
* `Math.random() > 0.5` in `parseQuizFromText` is abstracted as a coin oracle
  `coin : Nat → Bool` indexed by loop iteration.
* Timestamps are integer epoch milliseconds; `setTimeout` sleeps are recorded as a list
  of durations instead of actually waiting.
-/

namespace Fonta

/-- Contiguous-sublist test on character lists (structural, so it evaluates in the
kernel): `needle` occurs at some position of `hay`. -/
def listContainsSub (needle : List Char) : List Char → Bool
  | [] => needle.isEmpty
  | c :: t => needle.isPrefixOf (c :: t) || listContainsSub needle t

/-- JS `hay.includes(needle)`: substring containment. -/
def strContains (hay needle : String) : Bool :=
  listContainsSub needle.toList hay.toList

/-- JS `String.prototype.split` on a character class: cut at every delimiter character,
keeping empty fragments (structural reimplementation of the split the code performs,
written on `List Char` so that it evaluates in the kernel). -/
def jsSplitAux (p : Char → Bool) : List Char → List Char → List String
  | [], acc => [String.mk acc.reverse]
  | c :: rest, acc =>
    if p c then String.mk acc.reverse :: jsSplitAux p rest []
    else jsSplitAux p rest (c :: acc)

/-- See `jsSplitAux`. -/
def jsSplit (p : Char → Bool) (s : String) : List String :=
  jsSplitAux p s.toList []

/-- JS `String.prototype.trim`: strip leading and trailing whitespace. -/
def jsTrim (s : String) : String :=
  String.mk (((s.toList.dropWhile Char.isWhitespace).reverse.dropWhile
    Char.isWhitespace).reverse)

/-- JS `String.prototype.toLowerCase` (ASCII case folding suffices for the fixed
keyword set the code compares against). -/
def jsToLower (s : String) : String :=
  String.mk (s.toList.map Char.toLower)

/-- The fields of the HuggingFace `response.data` payload that `ai.ts` inspects. -/
structure HFData where
  error : Option String
  summaryText : Option String
  generatedText : Option String
deriving DecidableEq, Repr

/-- Outcome of one axios POST: either a resolved payload or a thrown exception. -/
inductive HFOutcome where
  | resp (data : HFData)
  | thrown
deriving DecidableEq, Repr

/-- How `callHFWithRetry` terminates: `returned` a payload, `threw` an error message, or
fell out of the loop returning `undefined` (only possible when `maxRetries = 0`). -/
inductive RetryResult where
  | returned (data : HFData)
  | threw (msg : String)
  | undef
deriving DecidableEq, Repr

/-- Observable trace of one `callHFWithRetry` run: its result, the number of times the
axios call was made, and the `setTimeout` sleep durations (ms) in order. -/
structure RetryTrace where
  result : RetryResult
  attempts : Nat
  sleeps : List Nat
deriving DecidableEq, Repr

/-- Source: `response.data.error && response.data.error.includes('loading')`.
(A `some ""` error is falsy in JS and also contains no `"loading"`, so the two
readings agree.) -/
def isLoadingError (d : HFData) : Bool :=
  match d.error with
  | some e => strContains e "loading"
  | none => false

/-- The `for (let attempt = 1; attempt <= maxRetries; attempt++)` loop of
`callHFWithRetry` (ai.ts lines 11–47), with the remaining number of loop iterations as
fuel. Branches, in source order:
* resolved response whose `error` includes `'loading'` and `attempt < maxRetries`:
  sleep `attempt * 2000` ms and `continue`;
* any other resolved response (including a loading payload on the final attempt):
  `return response.data`;
* thrown error with `attempt === maxRetries`: rethrow the terminal error;
* thrown error otherwise: sleep `attempt * 1000` ms and loop. -/
def callHFLoop (call : Nat → HFOutcome) (maxRetries : Nat) : Nat → Nat → RetryTrace
  | _, 0 => ⟨.undef, 0, []⟩
  | attempt, fuel + 1 =>
    match call attempt with
    | .resp d =>
      if isLoadingError d && attempt < maxRetries then
        let t := callHFLoop call maxRetries (attempt + 1) fuel
        ⟨t.result, t.attempts + 1, attempt * 2000 :: t.sleeps⟩
      else
        ⟨.returned d, 1, []⟩
    | .thrown =>
      if attempt = maxRetries then
        ⟨.threw ("HuggingFace API failed after " ++ toString maxRetries ++ " attempts"),
         1, []⟩
      else
        let t := callHFLoop call maxRetries (attempt + 1) fuel
        ⟨t.result, t.attempts + 1, attempt * 1000 :: t.sleeps⟩

/-- Source: `callHFWithRetry(model, inputs, params, maxRetries)`: attempts start at 1 and the
loop runs at most `maxRetries` iterations. The `model`/`inputs`/`params` arguments only
shape the HTTP request, which is abstracted into `call`. -/
def callHFWithRetry (call : Nat → HFOutcome) (maxRetries : Nat) : RetryTrace :=
  callHFLoop call maxRetries 1 maxRetries

/-- Source: `difficulty` parameter of quiz generation (`'easy' | 'medium' | 'hard'`). -/
inductive Difficulty where
  | easy
  | medium
  | hard
deriving DecidableEq, Repr

/-- Question type (`'mcq' | 'short_answer'`). -/
inductive QType where
  | mcq
  | short_answer
deriving DecidableEq, Repr

/-- A quiz question object as built in `ai.ts` (`options` is present iff mcq). -/
structure Question where
  type : QType
  question : String
  options : Option (List String)
  answer : String
  difficulty : Difficulty
deriving DecidableEq, Repr

/-- Placeholder for out-of-range list reads (never actually selected). -/
def dummyQuestion : Question :=
  ⟨.short_answer, "", none, "", .medium⟩

/-- The `questionStarters` table of `generateMockQuiz` (ai.ts lines 220–239). -/
def questionStarters : Difficulty → List String
  | .easy =>
    ["What is mentioned about",
     "According to the text, what is",
     "The text states that",
     "Which of the following is true"]
  | .medium =>
    ["How does the text explain",
     "What can be inferred about",
     "The relationship between",
     "Why does the author suggest"]
  | .hard =>
    ["Critically analyze the concept of",
     "Evaluate the effectiveness of",
     "Compare and contrast the ideas about",
     "What are the implications of"]

/-- Source: `generateMockQuiz(text, difficulty)` (ai.ts lines 218–270): a loop `i = 0 .. 9`
pushing a short-answer question when `i % 3 === 0` and a 4-option mcq otherwise; the
prompt starter is `starters[i % starters.length]` (each starter list has 4 entries).
The `text` parameter is never read. -/
def generateMockQuiz (text : String) (difficulty : Difficulty) : List Question :=
  (List.range 10).map fun i =>
    let starters := questionStarters difficulty
    if i % 3 = 0 then
      { type := .short_answer
        question := starters.getD (i % starters.length) ""
          ++ " the main concepts discussed in the text?"
        options := none
        answer :=
          "This question requires analysis of the key concepts presented in the study material."
        difficulty := difficulty }
    else
      { type := .mcq
        question := starters.getD (i % starters.length) ""
          ++ " the primary focus of this material?"
        options := some
          ["The main concept discussed in the text",
           "A secondary topic mentioned briefly",
           "An unrelated concept",
           "None of the above"]
        answer := "The main concept discussed in the text"
        difficulty := difficulty }

/-- Source: `generateMockQuiz` never reads its `text` argument (shared helper). -/
theorem generateMockQuiz_text_irrelevant (t₁ t₂ : String) (d : Difficulty) :
    generateMockQuiz t₁ d = generateMockQuiz t₂ d := rfl

/-- Sentence delimiters of the `/[.!?]+/` splits in `ai.ts`. -/
def isSentenceDelim (c : Char) : Bool :=
  c = '.' || c = '!' || c = '?'

/-- JS `text.split(/[.!?]+/)` modelled as a single-character split. The regex collapses
delimiter runs, so the two differ only by extra empty fragments, and every use site
filters fragments by a positive trimmed length, discarding exactly those. -/
def splitSentences (text : String) : List String :=
  jsSplit isSentenceDelim text

/-- Source: `text.split(/[.!?]+/).filter(s => s.trim().length > 15)`
(ai.ts line 103). -/
def qualifyingSentences (text : String) : List String :=
  (splitSentences text).filter fun s => 15 < (jsTrim s).length

/-- The fixed importance-keyword list of `createExtractiveSummary` (ai.ts line 104). -/
def keyWords : List String :=
  ["important", "key", "main", "primary", "essential", "significant", "crucial"]

/-- Keyword bonus: `+1` for each keyword the lowercased sentence contains
(`includes` tests presence, not occurrence count). -/
def keywordScore (sentence : String) : Nat :=
  (keyWords.filter fun kw => strContains (jsToLower sentence) kw).length

/-- Score of the sentence at (post-filter) index `i` of `n` sentences
(ai.ts lines 107–122): `+2` if first or last, `+1` per present keyword, `+1` if the
(untrimmed) length is strictly between 30 and 300. -/
def sentenceScore (n i : Nat) (sentence : String) : Nat :=
  (if i = 0 ∨ i = n - 1 then 2 else 0)
    + keywordScore sentence
    + (if 30 < sentence.length ∧ sentence.length < 300 then 1 else 0)

/-- One element of `scoredSentences`: the code keeps `{sentence: sentence.trim(), score}`;
`idx` additionally records the original position, used below to express the stability of
the JS sort (see `scoreLE`). -/
structure ScoredSentence where
  sentence : String
  score : Nat
  idx : Nat
deriving DecidableEq, Repr

/-- Source: `sentences.map((sentence, index) => ({sentence: sentence.trim(), score}))`
(ai.ts lines 107–122), with the original index recorded. -/
def scoredSentences (text : String) : List ScoredSentence :=
  let sentences := qualifyingSentences text
  sentences.enum.map fun p =>
    ⟨jsTrim p.2, sentenceScore sentences.length p.1 p.2, p.1⟩

/-- The order realised by the JS sort `(a, b) => b.score - a.score`.
`Array.prototype.sort` is stable (ES2019), so its output is the unique descending-score
order that keeps equal scores in original order: exactly a sort by the total order
"higher score first, ties by lower original index first". On lists with pairwise
distinct `idx` (such as `scoredSentences`, whose `idx` come from `enum`) this order is
strict-total, so every sorted permutation coincides and the choice of sorting algorithm
below is immaterial. -/
def scoreOrder (a b : ScoredSentence) : Prop :=
  b.score < a.score ∨ (a.score = b.score ∧ a.idx ≤ b.idx)

instance : DecidableRel scoreOrder := fun a b => by
  unfold scoreOrder
  infer_instance

instance : IsTotal ScoredSentence scoreOrder :=
  ⟨by intro a b; unfold scoreOrder; omega⟩

instance : IsTrans ScoredSentence scoreOrder :=
  ⟨by intro a b c; unfold scoreOrder; omega⟩

/-- Source: `scoredSentences.sort((a, b) => b.score - a.score)` (stable; see `scoreOrder`). -/
def sortedScored (text : String) : List ScoredSentence :=
  List.insertionSort scoreOrder (scoredSentences text)

/-- Source: `.slice(0, Math.min(8, sentences.length))` applied to the sorted list. -/
def extractiveScoredTop (text : String) : List ScoredSentence :=
  (sortedScored text).take (min 8 (qualifyingSentences text).length)

/-- Source: `topSentences` of `createExtractiveSummary`: the selected sentences (trimmed), in
the order they are rendered. -/
def extractiveTopSentences (text : String) : List String :=
  (extractiveScoredTop text).map (·.sentence)

/-- Source: `${index + 1}. ${sentence}.\n` lines of the numbered rendering. -/
def renderNumbered (l : List String) : String :=
  String.join (l.enum.map fun p => toString (p.1 + 1) ++ ". " ++ p.2 ++ ".\n")

/-- Source: `createExtractiveSummary(text)` (ai.ts lines 101–136). -/
def createExtractiveSummary (text : String) : String :=
  "## 📝 Summary\n\n" ++ renderNumbered (extractiveTopSentences text)

/-- Source: `formatSummary(summary)` (ai.ts lines 74–99): split into sentences (positive trimmed
length), then either a key-points/details layout (more than 3 sentences) or a plain
numbered list. -/
def formatSummary (summary : String) : String :=
  let sentences := (splitSentences summary).filter fun s => 0 < (jsTrim s).length
  if 3 < sentences.length then
    "## 📝 Summary\n\n" ++ "### Key Points:\n"
      ++ renderNumbered ((sentences.take 3).map jsTrim)
      ++ "\n### Additional Details:\n"
      ++ String.join ((sentences.drop 3).map fun s => "• " ++ jsTrim s ++ ".\n")
  else
    "## 📝 Summary\n\n" ++ renderNumbered (sentences.map jsTrim)

/-- Source: `summarizeText(text)` (ai.ts lines 49–72): call the primary summarizer through
`callHFWithRetry`; on a payload carrying `summary_text` format it, otherwise (missing
field, thrown terminal error, or an `undefined` loop fall-through) fall back to
`createExtractiveSummary(text)`. -/
def summarizeText (call : Nat → HFOutcome) (text : String) : String :=
  match (callHFWithRetry call 3).result with
  | .returned d =>
    match d.summaryText with
    | some s => formatSummary s
    | none => createExtractiveSummary text
  | _ => createExtractiveSummary text

/-- Source: `parseQuizFromText(text, difficulty)` (ai.ts lines 188–216): nonempty lines, up to
10, each turned into an mcq or a short-answer question by a `Math.random() > 0.5` coin
flip (the `coin` oracle, indexed by iteration). -/
def parseQuizFromText (coin : Nat → Bool) (text : String) (difficulty : Difficulty) :
    List Question :=
  let lines := (jsSplit (· = '\n') text).filter fun l => jsTrim l != ""
  (lines.take 10).enum.map fun p =>
    if coin p.1 then
      { type := .mcq
        question := "Based on the content, " ++ p.2 ++ "?"
        options := some ["Option A", "Option B", "Option C", "Option D"]
        answer := "Option A"
        difficulty := difficulty }
    else
      { type := .short_answer
        question := "Explain: " ++ p.2
        options := none
        answer := "Sample answer based on the content provided."
        difficulty := difficulty }

/-- Source: `generateQuiz(text, difficulty)` (ai.ts lines 138–168): a parsed primary result is
kept only when it has at least one question; every other outcome (no `generated_text`,
empty parse, thrown terminal error, `undefined`) yields `generateMockQuiz`. -/
def generateQuiz (coin : Nat → Bool) (call : Nat → HFOutcome) (text : String)
    (difficulty : Difficulty) : List Question :=
  match (callHFWithRetry call 3).result with
  | .returned d =>
    match d.generatedText with
    | some g =>
      let quizData := parseQuizFromText coin g difficulty
      if 0 < quizData.length then quizData else generateMockQuiz text difficulty
    | none => generateMockQuiz text difficulty
  | _ => generateMockQuiz text difficulty

/-- Source: `formatHomeworkResponse(response, subject)` (ai.ts lines 315–327):
`templates[subject] || templates.general` — an unknown subject falls back to the
general template. -/
def formatHomeworkResponse (response subject : String) : String :=
  if subject = "mathematics" then
    "## 🔢 Step-by-Step Solution\n\n### Understanding the Problem\n" ++ response
      ++ "\n\n### Solution Steps\n1. Identify given information\n2. Apply relevant formulas\n3. Calculate step by step\n4. Verify the answer\n\n### Study Tips\n• Practice similar problems\n• Memorize key formulas\n• Check your work"
  else if subject = "science" then
    "## 🔬 Scientific Explanation\n\n### Core Concepts\n" ++ response
      ++ "\n\n### Key Principles\n• Fundamental laws involved\n• Real-world applications\n• Common misconceptions\n\n### Further Study\n• Review related topics\n• Conduct experiments\n• Connect to daily life"
  else if subject = "essay" then
    "## ✍️ Essay Writing Guide\n\n### Structure Recommendation\n" ++ response
      ++ "\n\n### Writing Tips\n• Clear thesis statement\n• Strong supporting evidence\n• Logical flow of ideas\n• Compelling conclusion\n\n### Nigerian Context\n• Use local examples\n• Consider cultural perspectives\n• Address relevant issues"
  else
    "## 📚 Detailed Explanation\n\n" ++ response
      ++ "\n\n### Key Takeaways\n• Main concepts to remember\n• Practical applications\n• Study recommendations"

/-- Source: `generateMockHomeworkHelp(question, subject)` (ai.ts lines 329–435):
`responses[subject] || responses.general`, each template embedding the question
verbatim. -/
def generateMockHomeworkHelp (question subject : String) : String :=
  if subject = "mathematics" then
    "## 🔢 Step-by-Step Solution\n\n### Understanding the Problem\nLet's break down your question: \""
      ++ question
      ++ "\"\n\n### Solution Approach\n1. **Identify what we know**: Extract the given information\n2. **Determine what we need to find**: Clarify the objective\n3. **Choose the right method**: Select appropriate formulas or techniques\n4. **Solve systematically**: Work through each step carefully\n5. **Verify the answer**: Check if the result makes sense\n\n### Nigerian Exam Context\nThis type of question commonly appears in:\n• JAMB Mathematics\n• University entrance exams\n• Course assessments\n\n### Study Tips\n• Practice similar problems daily\n• Understand the concept, don't just memorize\n• Show all working steps in exams"
  else if subject = "science" then
    "## 🔬 Scientific Explanation\n\n### Core Concept Analysis\nYour question \""
      ++ question
      ++ "\" involves important scientific principles.\n\n### Key Scientific Principles\n• **Fundamental Laws**: The underlying scientific laws that apply\n• **Cause and Effect**: How different factors interact\n• **Real-world Applications**: Where you see this in daily life\n\n### Nigerian Educational Context\nThis concept is relevant to:\n• WAEC Science subjects\n• University science courses\n• Practical applications in Nigeria\n\n### Study Strategy\n• Connect theory to practical examples\n• Use diagrams and visual aids\n• Relate to local environmental examples"
  else if subject = "essay" then
    "## ✍️ Essay Writing Guidance\n\n### Analyzing Your Topic\n\""
      ++ question
      ++ "\" requires a structured approach to essay writing.\n\n### Recommended Structure\n1. **Introduction** (1 paragraph)\n   • Hook to grab attention\n   • Background context\n   • Clear thesis statement\n\n2. **Body Paragraphs** (2-3 paragraphs)\n   • One main idea per paragraph\n   • Evidence and examples\n   • Nigerian context where relevant\n\n3. **Conclusion** (1 paragraph)\n   • Summarize key points\n   • Restate thesis\n   • Call to action or final thought\n\n### Nigerian Writing Context\n• Use local examples and case studies\n• Consider cultural perspectives\n• Address issues relevant to Nigerian society\n\n### Writing Tips\n• Write clearly and concisely\n• Use transition words\n• Proofread carefully"
  else
    "## 📚 Comprehensive Explanation\n\n### Question Analysis\nLet me help you understand: \""
      ++ question
      ++ "\"\n\n### Key Concepts\n• **Main Idea**: The central concept you need to grasp\n• **Supporting Details**: Important facts and information\n• **Connections**: How this relates to other topics\n\n### Learning Strategy\n1. Break down complex ideas into smaller parts\n2. Use examples to understand abstract concepts\n3. Practice applying the knowledge\n4. Connect to real-world situations\n\n### Nigerian Educational Context\nThis topic is important for:\n• Academic success in Nigerian institutions\n• Practical application in local context\n• Building foundational knowledge\n\n### Next Steps\n• Review related materials\n• Practice with similar questions\n• Discuss with classmates or teachers"

/-- Source: `getHomeworkHelp(question, subject)` (ai.ts lines 272–295): a payload carrying
`generated_text` is formatted; every other outcome yields
`generateMockHomeworkHelp(question, subject)`. -/
def getHomeworkHelp (call : Nat → HFOutcome) (question subject : String) : String :=
  match (callHFWithRetry call 3).result with
  | .returned d =>
    match d.generatedText with
    | some g => formatHomeworkResponse g subject
    | none => generateMockHomeworkHelp question subject
  | _ => generateMockHomeworkHelp question subject

/-- A `daily_usage` row, keyed by (user, date): the fields `useUsageLimits` reads. -/
structure UsageRow where
  total_count : Nat
  last_reset : Int
deriving DecidableEq, Repr

/-- The React state of the `useUsageLimits` hook. -/
structure HookState where
  totalUsage : Nat
  canUse : Bool
  timeUntilReset : Int
  loading : Bool
deriving DecidableEq, Repr

/-- The `useState` initial values (useUsageLimits.ts lines 5–8):
`totalUsage = 0`, `canUse = true`, `timeUntilReset = 0`, `loading = true`. -/
def initialHookState : HookState :=
  ⟨0, true, 0, true⟩

/-- Outcome of the `daily_usage` select for (user, today):
* `found row` — a row exists;
* `missing` — no row (error code `PGRST116`), triggering the insert branch;
* `unavailable` — the read (or the subsequent write) failed: either the query threw,
  or it returned a non-`PGRST116` error with no data. Both leave every piece of hook
  state untouched except `loading` (set in `finally`). -/
inductive StoreRead where
  | found (row : UsageRow)
  | missing
  | unavailable
deriving DecidableEq, Repr

/-- Source: `6 * 60 * 60 * 1000` ms (useUsageLimits.ts line 57). -/
def sixHours : Int := 6 * 60 * 60 * 1000

/-- Source: `calculateTimeUntilReset(lastReset)` (useUsageLimits.ts lines 75–78). -/
def calculateTimeUntilReset (now lastReset : Int) : Int :=
  max 0 (lastReset + sixHours - now)

/-- Source: `loadUsageData()` (useUsageLimits.ts lines 22–73), as a function of the current
time, the store read outcome, and the previous hook state. Returns the new hook state
together with the row written back to the store (`none` when nothing is written):
* missing row: insert `{total_count: 0, last_reset: now}` and show a fresh record;
* found row: the usage is reset (via `resetUsage()`, writing
  `{total_count: 0, last_reset: now}` and fixing `timeUntilReset` to six hours) only
  when six hours have passed since `last_reset` AND `total_count >= 15`; otherwise
  `canUse := total_count < 15` on the stale count;
* unavailable store: the catch block only logs, so the previous decision survives. -/
def loadUsageData (now : Int) (read : StoreRead) (s : HookState) :
    HookState × Option UsageRow :=
  match read with
  | .missing =>
    ({ totalUsage := 0, canUse := true,
       timeUntilReset := calculateTimeUntilReset now now, loading := false },
     some ⟨0, now⟩)
  | .found row =>
    if sixHours ≤ now - row.last_reset ∧ 15 ≤ row.total_count then
      ({ totalUsage := 0, canUse := true, timeUntilReset := sixHours, loading := false },
       some ⟨0, now⟩)
    else
      ({ totalUsage := row.total_count, canUse := decide (row.total_count < 15),
         timeUntilReset := calculateTimeUntilReset now row.last_reset, loading := false },
       none)
  | .unavailable => ({ s with loading := false }, none)

/-- Result of one `incrementUsage()` call: the new hook state, the boolean the call
returns, and the count written to the `daily_usage` row (`none` when nothing is
written). -/
structure IncResult where
  state : HookState
  returned : Bool
  written : Option Nat
deriving DecidableEq, Repr

/-- Source: `incrementUsage()` (useUsageLimits.ts lines 86–112): bail out when the hook-local
`canUse` is false; otherwise write `total_count := totalUsage + 1` — the hook-local
`totalUsage`, not the stored value — unconditionally to the (user, today) row, and on a
returned row adopt its count. `updateOk` models whether the supabase update returned a
row (false also covers a thrown write). -/
def incrementUsage (s : HookState) (updateOk : Bool) : IncResult :=
  if !s.canUse then ⟨s, false, none⟩
  else if updateOk then
    ⟨{ s with totalUsage := s.totalUsage + 1,
              canUse := decide (s.totalUsage + 1 < 15) },
     true, some (s.totalUsage + 1)⟩
  else ⟨s, false, none⟩

/-- Two `incrementUsage` calls from two hook instances (e.g. two tabs of one user) that
both loaded the same stored count `c` before either write — the schedulable
interleaving read₁, read₂, write₁, write₂, available because the hook awaits between
load and update. Returns the two booleans returned to the callers and the final stored
count (the writes land in order; each is an unconditional overwrite). -/
def concurrentPair (c : Nat) : Bool × Bool × Nat :=
  let s : HookState := { totalUsage := c, canUse := decide (c < 15),
                         timeUntilReset := 0, loading := false }
  let r₁ := incrementUsage s true
  let r₂ := incrementUsage s true
  (r₁.returned, r₂.returned, r₂.written.getD (r₁.written.getD c))

/-- Two `incrementUsage` calls run serially from one hook instance: the second sees the
state produced by the first. -/
def serialPair (c : Nat) : Bool × Bool :=
  let s : HookState := { totalUsage := c, canUse := decide (c < 15),
                         timeUntilReset := 0, loading := false }
  let r₁ := incrementUsage s true
  let r₂ := incrementUsage r₁.state true
  (r₁.returned, r₂.returned)

/-- The columns of a `profiles` row that `useProfile.canUseFeature` reads. -/
structure Profile where
  subscription_type : String
  quiz_count : Nat
  summary_count : Nat
  homework_count : Nat
deriving DecidableEq, Repr

/-- The feature kinds of `useProfile` (`'quiz' | 'summary' | 'homework'`). -/
inductive FeatureType where
  | quiz
  | summary
  | homework
deriving DecidableEq, Repr

/-- The `limits` table of `canUseFeature` (useProfile.ts line 89). -/
def featureLimit : FeatureType → Nat
  | .quiz => 3
  | .summary => 2
  | .homework => 1

/-- Source: `profile[`${type}_count`]` (useProfile.ts lines 90–91). -/
def featureCount (p : Profile) : FeatureType → Nat
  | .quiz => p.quiz_count
  | .summary => p.summary_count
  | .homework => p.homework_count

/-- Source: `canUseFeature(type)` (useProfile.ts lines 85–94): no profile → false; a premium
subscription → true unconditionally; otherwise compare the per-feature count with the
per-feature limit. -/
def canUseFeature (p : Option Profile) (t : FeatureType) : Bool :=
  match p with
  | none => false
  | some p =>
    if p.subscription_type = "premium" then true
    else decide (featureCount p t < featureLimit t)

/-- The request gate of SummarizerTab / QuizTab (`if (!content.trim() || !canUse)
return;`): a generation request proceeds only when the input is nonempty after trimming
and the `useUsageLimits` hook's `canUse` is true. The profile's `subscription_type` is
not consulted here. -/
def tabRequestAllowed (content : String) (s : HookState) : Bool :=
  jsTrim content != "" && s.canUse

/-! ### Concrete inputs used by counterexamples and witnesses -/

/-- A warm-up payload: the HuggingFace "model is loading" response body. -/
def loadingPayload : HFData :=
  ⟨some "Model facebook/bart-large-cnn is currently loading", none, none⟩

/-- Three qualifying sentences whose middle sentence outscores the first and last. -/
def cexSummaryText : String :=
  "First sentence here okay. The important key main points matter here. Last sentence here okay."

/-- A premium profile whose per-feature and daily counts are all at or over every cap. -/
def premiumMaxed : Profile :=
  ⟨"premium", 15, 15, 15⟩

/-! ### Helper lemmas about the retry loop -/

/-- One unfolding of the loop on an attempt whose call throws before the final
attempt. -/
theorem callHFLoop_thrown_step (call : Nat → HFOutcome) (maxRetries attempt fuel : Nat)
    (hc : call attempt = .thrown) (hne : attempt ≠ maxRetries) :
    callHFLoop call maxRetries attempt (fuel + 1) =
      ⟨(callHFLoop call maxRetries (attempt + 1) fuel).result,
       (callHFLoop call maxRetries (attempt + 1) fuel).attempts + 1,
       attempt * 1000 :: (callHFLoop call maxRetries (attempt + 1) fuel).sleeps⟩ := by
  rw [callHFLoop, hc]
  simp [hne]

/-- A run with at least one iteration of fuel makes at least one attempt. -/
theorem callHFLoop_attempts_pos (call : Nat → HFOutcome) (maxRetries attempt fuel : Nat)
    (hf : 1 ≤ fuel) :
    1 ≤ (callHFLoop call maxRetries attempt fuel).attempts := by
  match fuel, hf with
  | f + 1, _ =>
    rw [callHFLoop]
    cases hc : call attempt <;> dsimp only <;> split <;> simp

/-- An always-throwing call drives the loop to the terminal error, making one attempt
per unit of fuel. -/
theorem callHFLoop_all_thrown (call : Nat → HFOutcome) (maxRetries : Nat)
    (hcall : ∀ n, call n = .thrown) :
    ∀ fuel attempt, 1 ≤ fuel → attempt + fuel = maxRetries + 1 →
      (callHFLoop call maxRetries attempt fuel).result =
        .threw ("HuggingFace API failed after " ++ toString maxRetries ++ " attempts") ∧
      (callHFLoop call maxRetries attempt fuel).attempts = fuel := by
  intro fuel
  induction fuel with
  | zero => intro attempt h1 _; omega
  | succ f ih =>
    intro attempt _ hsum
    by_cases hend : attempt = maxRetries
    · have hf : f = 0 := by omega
      subst hf
      rw [callHFLoop, hcall attempt]
      simp [hend]
    · have hf : 1 ≤ f := by omega
      have h := ih (attempt + 1) hf (by omega)
      rw [callHFLoop_thrown_step call maxRetries attempt f (hcall attempt) hend]
      exact ⟨h.1, by rw [h.2]⟩

/-! ### C3 -/

/-- C3 counterexample: a call that reports the warm-up ("loading") condition on all
three attempts does NOT raise the terminal error — `callHFWithRetry` makes its three
attempts and then returns the raw warm-up failure payload as if it were a success,
refuting "it never returns ... the raw failure payload". -/
theorem callHFWithRetry_warmup_exhaustion_cex :
    (callHFWithRetry (fun _ => .resp loadingPayload) 3).result =
      .returned loadingPayload ∧
    (callHFWithRetry (fun _ => .resp loadingPayload) 3).attempts = 3 := by
  decide

/-- C3 (amended): only for generic failures (thrown errors) on every attempt does
`callHFWithRetry` raise the terminal "HuggingFace API failed after N attempts" error
after exactly `maxRetries` attempts; a warm-up response on the final attempt is instead
returned verbatim (see the counterexample). -/
theorem callHFWithRetry_exhaustion (call : Nat → HFOutcome) (maxRetries : Nat)
    (hpos : 1 ≤ maxRetries) (hcall : ∀ n, call n = .thrown) :
    (callHFWithRetry call maxRetries).result =
      .threw ("HuggingFace API failed after " ++ toString maxRetries ++ " attempts") ∧
    (callHFWithRetry call maxRetries).attempts = maxRetries := by
  have h := callHFLoop_all_thrown call maxRetries hcall maxRetries 1 hpos (by omega)
  exact ⟨h.1, h.2⟩

/-- C3 witness: the amended theorem applied to an always-throwing call with the default
`maxRetries = 3`. -/
theorem callHFWithRetry_exhaustion_witness :
    1 ≤ 3 ∧
    ((callHFWithRetry (fun _ => .thrown) 3).result =
        .threw ("HuggingFace API failed after " ++ toString 3 ++ " attempts") ∧
      (callHFWithRetry (fun _ => .thrown) 3).attempts = 3) :=
  ⟨by decide, callHFWithRetry_exhaustion (fun _ => .thrown) 3 (by decide) (fun _ => rfl)⟩

/-! ### C4 -/

/-- C4 counterexample: a fatal error surfaces as a thrown axios error, and the catch
block of `callHFWithRetry` treats every thrown error alike — a call that fails fatally
on every attempt is retried to all 3 attempts with backoff sleeps of 1000 ms and
2000 ms, refuting "exactly one attempt ... without scheduling any retry or backoff
sleep". -/
theorem fatal_error_retried_cex :
    (callHFWithRetry (fun _ => .thrown) 3).attempts = 3 ∧
    (callHFWithRetry (fun _ => .thrown) 3).sleeps = [1000, 2000] := by
  decide

/-- C4 (amended): `callHFWithRetry` does not distinguish fatal from transient thrown
errors: whenever the first attempt throws and `maxRetries ≥ 2`, a second attempt is
made and a 1000 ms backoff sleep (1 × baseDelay × attempt) is scheduled first — no
short-circuit. -/
theorem thrown_first_attempt_retries (call : Nat → HFOutcome) (maxRetries : Nat)
    (h2 : 2 ≤ maxRetries) (h1 : call 1 = .thrown) :
    2 ≤ (callHFWithRetry call maxRetries).attempts ∧
    (callHFWithRetry call maxRetries).sleeps.head? = some 1000 := by
  obtain ⟨f, rfl⟩ : ∃ f, maxRetries = f + 1 := ⟨maxRetries - 1, by omega⟩
  have hne : 1 ≠ f + 1 := by omega
  have hstep := callHFLoop_thrown_step call (f + 1) 1 f h1 hne
  have hpos := callHFLoop_attempts_pos call (f + 1) (1 + 1) f (by omega)
  rw [callHFWithRetry, hstep]
  refine ⟨?_, rfl⟩
  show 2 ≤ (callHFLoop call (f + 1) (1 + 1) f).attempts + 1
  omega

/-- C4 witness: the amended theorem applied to an always-throwing call with
`maxRetries = 3`. -/
theorem thrown_first_attempt_retries_witness :
    2 ≤ 3 ∧
    (2 ≤ (callHFWithRetry (fun _ => .thrown) 3).attempts ∧
      (callHFWithRetry (fun _ => .thrown) 3).sleeps.head? = some 1000) :=
  ⟨by decide, thrown_first_attempt_retries (fun _ => .thrown) 3 (by decide) rfl⟩

/-! ### C1 -/

/-- C1 counterexample: two concurrent `incrementUsage` calls that both loaded the
stored count 14 (= cap − 1) before either write both return allowed (`true`), and the
store ends at 15 — one increment is lost, because each call writes its hook-read count
plus 1 instead of performing an atomic read-modify-write. This refutes both "at most
one returns allowed=true" and "never a separate read followed by a write of
read-value+1". -/
theorem incrementUsage_concurrent_cex :
    concurrentPair 14 = (true, true, 15) := by decide

/-- C1 (amended): `incrementUsage` is a non-atomic read-then-write — its store write is
always hook-read count + 1 — and the "at most one of two calls starting at
count ≥ cap − 1 succeeds" guarantee holds only when the calls run serially, each seeing
the state the previous one produced; the concurrent interleaving in the counterexample
admits two successes. -/
theorem incrementUsage_serial_at_most_one (c : Nat) (h : 14 ≤ c) :
    (serialPair c).2 = false ∧
    ∀ s : HookState, (incrementUsage s true).written =
      (if s.canUse then some (s.totalUsage + 1) else none) := by
  constructor
  · by_cases hc : c < 15
    · have hc14 : c = 14 := by omega
      subst hc14
      decide
    · have hc' : decide (c < 15) = false := by simp [hc]
      simp [serialPair, incrementUsage, hc']
  · intro s
    cases hs : s.canUse <;> simp [incrementUsage, hs]

/-- C1 witness: the amended theorem at the boundary count 14. -/
theorem incrementUsage_serial_at_most_one_witness :
    14 ≤ 14 ∧
    ((serialPair 14).2 = false ∧
      ∀ s : HookState, (incrementUsage s true).written =
        (if s.canUse then some (s.totalUsage + 1) else none)) :=
  ⟨by decide, incrementUsage_serial_at_most_one 14 (by decide)⟩

/-! ### C2 -/

/-- C2 counterexample: a usage record with count 10 whose window has long expired
(`now − lastReset = 2 × resetWindow ≥ resetWindow`) is NOT reset by `loadUsageData`:
the observed count is 10, not 0, and nothing is written back — the reset branch
additionally requires `total_count >= 15`. -/
theorem lazyReset_skips_uncapped_cex :
    sixHours ≤ 2 * sixHours - 0 ∧
    (loadUsageData (2 * sixHours) (.found ⟨10, 0⟩) initialHookState).1.totalUsage = 10 ∧
    (loadUsageData (2 * sixHours) (.found ⟨10, 0⟩) initialHookState).2 = none := by
  decide

/-- What `loadUsageData` actually does with an expired record: reset to 0 (state and
store) only when the stored count has reached the cap of 15; otherwise the stale count
is kept and compared against the cap (still allowed, since it is below 15). -/
def ExpiredRecordBehavior (now : Int) (row : UsageRow) (s : HookState) : Prop :=
  (15 ≤ row.total_count →
    loadUsageData now (.found row) s =
      ({ totalUsage := 0, canUse := true, timeUntilReset := sixHours, loading := false },
       some ⟨0, now⟩)) ∧
  (row.total_count < 15 →
    (loadUsageData now (.found row) s).1.totalUsage = row.total_count ∧
    (loadUsageData now (.found row) s).1.canUse = true ∧
    (loadUsageData now (.found row) s).2 = none)

/-- C2 (amended): for an expired record the lazy reset runs only when the count has
also reached the cap (15); an expired record below the cap keeps its stale count (the
`allowed` outcome is unaffected, as such a count is below the cap anyway). -/
theorem lazyReset_requires_cap (now : Int) (row : UsageRow) (s : HookState)
    (h : sixHours ≤ now - row.last_reset) :
    ExpiredRecordBehavior now row s := by
  constructor
  · intro hc
    simp [loadUsageData, ExpiredRecordBehavior, h, hc]
  · intro hc
    have hcond : ¬(sixHours ≤ now - row.last_reset ∧ 15 ≤ row.total_count) := by omega
    simp [loadUsageData, hcond, hc]

/-- C2 witness: the amended theorem on an expired record at the cap. -/
theorem lazyReset_requires_cap_witness :
    sixHours ≤ sixHours - (0 : Int) ∧
    ExpiredRecordBehavior sixHours ⟨15, 0⟩ initialHookState :=
  ⟨by decide, lazyReset_requires_cap sixHours ⟨15, 0⟩ initialHookState (by decide)⟩

/-! ### C5 -/

/-- The claimed shape of the quiz fallback output: exactly 10 questions; short-answer
exactly at indices with `i % 3 = 0` (0, 3, 6, 9); multiple-choice with exactly 4
options and a modelAnswer string-equal to one of them everywhere else; every prompt is
the difficulty-keyed starter cycled by `i % 4`, followed by the fixed template tail. -/
def MockQuizShape (text : String) (d : Difficulty) : Prop :=
  (generateMockQuiz text d).length = 10 ∧
  ∀ i < 10,
    ((generateMockQuiz text d).getD i dummyQuestion).question =
      (questionStarters d).getD (i % 4) ""
        ++ (if i % 3 = 0 then " the main concepts discussed in the text?"
            else " the primary focus of this material?") ∧
    (i % 3 = 0 →
      ((generateMockQuiz text d).getD i dummyQuestion).type = .short_answer ∧
      ((generateMockQuiz text d).getD i dummyQuestion).options = none) ∧
    (i % 3 ≠ 0 →
      ((generateMockQuiz text d).getD i dummyQuestion).type = .mcq ∧
      (((generateMockQuiz text d).getD i dummyQuestion).options.getD []).length = 4 ∧
      ((generateMockQuiz text d).getD i dummyQuestion).answer ∈
        ((generateMockQuiz text d).getD i dummyQuestion).options.getD [])

/-- C5: on every non-empty input text and every difficulty, `generateMockQuiz` produces
exactly 10 questions with the claimed type pattern, option counts, contained model
answers, and `i % 4`-cycled starters. -/
theorem generateMockQuiz_shape (text : String) (d : Difficulty) (h : text ≠ "") :
    MockQuizShape text d := by
  unfold MockQuizShape
  rw [generateMockQuiz_text_irrelevant text "" d]
  cases d <;> decide

/-- C5 witness: the shape theorem at a concrete non-empty text and medium
difficulty. -/
theorem generateMockQuiz_shape_witness :
    ("photosynthesis notes" : String) ≠ "" ∧ MockQuizShape "photosynthesis notes" .medium :=
  ⟨by decide, generateMockQuiz_shape "photosynthesis notes" .medium (by decide)⟩

/-! ### C6 -/

/-- The scored list and the qualifying-sentence list have the same length (shared
helper). -/
theorem sortedScored_length (text : String) :
    (sortedScored text).length = (qualifyingSentences text).length := by
  simp [sortedScored, (List.perm_insertionSort scoreOrder _).length_eq, scoredSentences]

/-- Mapping a function of the second component over an enumerated list (shared
helper). -/
theorem map_snd_enum_eq {β γ : Type} (g : β → γ) (l : List β) :
    l.enum.map (fun p => g p.2) = l.map g := by
  rw [show (fun p : Nat × β => g p.2) = g ∘ Prod.snd from rfl, ← List.map_map,
    List.enum_map_snd]

/-- The trimmed selected sentences of the scored list are the trimmed qualifying
sentences (shared helper). -/
theorem scoredSentences_map_sentence (text : String) :
    (scoredSentences text).map (·.sentence) = (qualifyingSentences text).map jsTrim := by
  simp only [scoredSentences, List.map_map]
  exact map_snd_enum_eq jsTrim (qualifyingSentences text)

/-- C6 counterexample: `cexSummaryText` has 3 (≤ 8) qualifying sentences, yet the
fallback does not return them in original document order — the sort by descending
score runs regardless of the sentence count, so the higher-scoring middle sentence is
moved to the front. -/
theorem extractive_not_original_order_cex :
    (qualifyingSentences cexSummaryText).length = 3 ∧
    extractiveTopSentences cexSummaryText ≠
      (qualifyingSentences cexSummaryText).map jsTrim ∧
    extractiveTopSentences cexSummaryText =
      ["The important key main points matter here",
       "First sentence here okay",
       "Last sentence here okay"] := by
  decide

/-- What the extractive fallback actually selects: `min 8 n` sentences, ordered by
descending score with score ties in original order (`scoreOrder` on the recorded
original indices); when at most 8 sentences qualify, all of them are returned — but in
that same score order, not the original document order. -/
def ExtractiveSelection (text : String) : Prop :=
  (extractiveTopSentences text).length = min 8 (qualifyingSentences text).length ∧
  (extractiveScoredTop text).Pairwise scoreOrder ∧
  ((qualifyingSentences text).length ≤ 8 →
    List.Perm (extractiveTopSentences text) ((qualifyingSentences text).map jsTrim))

/-- C6 (amended): the fallback returns exactly `min 8 n` qualifying sentences, always
ordered by descending score with ties broken by original order; with ≤ 8 qualifying
sentences it returns all of them (as a permutation), in that score order rather than
the original order. -/
theorem createExtractiveSummary_selection (text : String) : ExtractiveSelection text := by
  have hlen := sortedScored_length text
  refine ⟨?_, ?_, ?_⟩
  · simp only [extractiveTopSentences, extractiveScoredTop, List.length_map,
      List.length_take, hlen]
    omega
  · exact (List.sorted_insertionSort scoreOrder (scoredSentences text)).sublist
      (List.take_sublist _ _)
  · intro hn
    have hmin : min 8 (qualifyingSentences text).length =
        (qualifyingSentences text).length := by omega
    have htake : extractiveScoredTop text = sortedScored text := by
      rw [extractiveScoredTop, hmin, List.take_of_length_le (le_of_eq hlen)]
    have hperm := (List.perm_insertionSort scoreOrder (scoredSentences text)).map
      (·.sentence)
    rw [extractiveTopSentences, htake]
    rw [scoredSentences_map_sentence text] at hperm
    exact hperm

/-- C6 witness: the amended theorem's ≤ 8 branch at the counterexample text. -/
theorem createExtractiveSummary_selection_witness :
    (qualifyingSentences cexSummaryText).length ≤ 8 ∧
    List.Perm (extractiveTopSentences cexSummaryText)
      ((qualifyingSentences cexSummaryText).map jsTrim) :=
  ⟨by decide, (createExtractiveSummary_selection cexSummaryText).2.2 (by decide)⟩

/-! ### C10 -/

/-- C10: the quiz fallback output is identical for any two input texts at the same
difficulty — `generateMockQuiz` never reads the study material, so the fallback quiz
cannot reflect the submitted content. -/
theorem generateMockQuiz_content_independent (t₁ t₂ : String) (d : Difficulty) :
    generateMockQuiz t₁ d = generateMockQuiz t₂ d := rfl

/-! ### C7 -/

/-- C7 counterexample: the premium bypass lives only in `useProfile.canUseFeature`; the
daily-cap quota check of `useUsageLimits` takes no premium flag at all, so a premium
identity whose `daily_usage` count reached 15 (window unexpired, `now = lastReset = 0`)
gets `canUse = false` and the tab gate built on it blocks the request — even though
`canUseFeature` answers `true` for the same premium profile. -/
theorem premium_daily_cap_denied_cex :
    canUseFeature (some premiumMaxed) .quiz = true ∧
    (loadUsageData 0 (.found ⟨15, 0⟩) initialHookState).1.canUse = false ∧
    tabRequestAllowed "study notes"
      (loadUsageData 0 (.found ⟨15, 0⟩) initialHookState).1 = false := by
  decide

/-- C7 (amended): the premium bypass holds for `useProfile.canUseFeature` (per-feature
limits quiz 3 / summary 2 / homework 1): a premium profile is always allowed there,
whatever its counts; the daily 15-cap check of `useUsageLimits` has no premium input
and denies once its count reaches 15 (see the counterexample). -/
theorem canUseFeature_premium (p : Profile) (t : FeatureType)
    (h : p.subscription_type = "premium") :
    canUseFeature (some p) t = true := by
  simp [canUseFeature, h]

/-- C7 witness: the amended theorem at a premium profile with every count maxed. -/
theorem canUseFeature_premium_witness :
    premiumMaxed.subscription_type = "premium" ∧
    canUseFeature (some premiumMaxed) .summary = true :=
  ⟨rfl, canUseFeature_premium premiumMaxed .summary rfl⟩

/-! ### C8 -/

/-- C8 counterexample: with the usage store unreachable, `loadUsageData` only logs, so
the initial hook state survives — and its `canUse` is initialised to `true`: the quota
check allows (fails open), refuting the claimed fail-closed denial. -/
theorem storage_failure_fail_open_cex :
    (loadUsageData 0 .unavailable initialHookState).1.canUse = true := by decide

/-- C8 (amended): when the storage read fails, `loadUsageData` writes nothing and
leaves every decision field of the previous hook state unchanged (only `loading` is
cleared); since the hook state is initialised with `canUse = true`, an unreachable
store yields allowed = true — fail-open, not fail-closed. -/
theorem storage_failure_keeps_prior_decision (now : Int) (s : HookState) :
    loadUsageData now .unavailable s = ({ s with loading := false }, none) ∧
    initialHookState.canUse = true :=
  ⟨rfl, rfl⟩

/-! ### C9 -/

/-- The fallback contract of the three pipeline entry points: any terminal throw from
`callHFWithRetry` makes all three return fallback content; a returned payload without
the expected field falls back likewise; and a parsed quiz with zero questions is
replaced by the mock quiz. -/
def PipelineFallsBack (call : Nat → HFOutcome) (coin : Nat → Bool) (text : String)
    (d : Difficulty) (question subject : String) : Prop :=
  (∀ msg, (callHFWithRetry call 3).result = .threw msg →
    summarizeText call text = createExtractiveSummary text ∧
    generateQuiz coin call text d = generateMockQuiz text d ∧
    getHomeworkHelp call question subject = generateMockHomeworkHelp question subject) ∧
  (∀ payload, (callHFWithRetry call 3).result = .returned payload →
    (payload.summaryText = none →
      summarizeText call text = createExtractiveSummary text) ∧
    (payload.generatedText = none →
      generateQuiz coin call text d = generateMockQuiz text d ∧
      getHomeworkHelp call question subject = generateMockHomeworkHelp question subject) ∧
    (∀ g, payload.generatedText = some g →
      (parseQuizFromText coin g d).length = 0 →
      generateQuiz coin call text d = generateMockQuiz text d))

/-- C9: `summarizeText`, `generateQuiz` and `getHomeworkHelp` never propagate a
terminal failure of the primary generator: on exhausted retries (thrown terminal
error), a payload missing the expected field, or a parse yielding zero questions, they
return the deterministic fallback content instead. -/
theorem pipeline_never_surfaces_failure (call : Nat → HFOutcome) (coin : Nat → Bool)
    (text : String) (d : Difficulty) (question subject : String) :
    PipelineFallsBack call coin text d question subject := by
  constructor
  · intro msg hmsg
    refine ⟨?_, ?_, ?_⟩ <;>
      simp [summarizeText, generateQuiz, getHomeworkHelp, hmsg]
  · intro payload hpay
    refine ⟨?_, ?_, ?_⟩
    · intro hs
      simp [summarizeText, hpay, hs]
    · intro hg
      exact ⟨by simp [generateQuiz, hpay, hg], by simp [getHomeworkHelp, hpay, hg]⟩
    · intro g hg hlen
      simp [generateQuiz, hpay, hg, hlen]

/-- C9 witness: all three fallbacks fire on a call that throws on every attempt. -/
theorem pipeline_never_surfaces_failure_witness :
    summarizeText (fun _ => .thrown) "t" = createExtractiveSummary "t" ∧
    generateQuiz (fun _ => true) (fun _ => .thrown) "t" .medium =
      generateMockQuiz "t" .medium ∧
    getHomeworkHelp (fun _ => .thrown) "q" "science" =
      generateMockHomeworkHelp "q" "science" :=
  (pipeline_never_surfaces_failure (fun _ => .thrown) (fun _ => true) "t" .medium
    "q" "science").1 "HuggingFace API failed after 3 attempts" (by decide)

end Fonta
